import Mathlib

/-!
Verification of the consignment-store core (`core.py`), its SQLite
persistence layer (`storage.py`) and the cloud synchronisation module
(`cloud_sync.py`).

Embedding conventions:
* Python `decimal.Decimal` values (prices, fees, percentages, balances)
  are exact decimals; they are embedded as rationals (`ℚ`).
* `datetime.date` values only ever enter the logic through whole-day
  differences (`(d1 - d2).days`) and equality, so dates are embedded as
  integer day numbers (`ℤ`).
* Python functions that can raise are embedded in `Except`; where the
  original mutates `self` in place, the embedded function additionally
  returns the updated state (unchanged on the error paths, since every
  `raise` in the source happens before the first mutation).
-/

namespace Fetters

/-- `Decimal.quantize(Decimal("0.01"), rounding=ROUND_HALF_UP)`:
round to two fraction digits, to nearest with ties away from zero
(Python's `ROUND_HALF_UP`). -/
def quantize2 (q : ℚ) : ℚ :=
  if 0 ≤ q then (⌊q * 100 + 1 / 2⌋ : ℚ) / 100
  else -((⌊-q * 100 + 1 / 2⌋ : ℚ) / 100)

/-- `ItemStatus` enum from `core.py`. -/
inductive ItemStatus
  | active
  | sold
  | returned
  | expired
deriving DecidableEq, Repr

/-- `Address` dataclass from `core.py`. -/
structure Address where
  street : String
  city : String
  state : String
  zip_code : String
deriving DecidableEq, Repr

/-- `SaleRecord` dataclass from `core.py` (the `Consignor`-variant core that
`ConsignmentStore.sell_item` produces). -/
structure SaleRecord where
  item_id : String
  sale_date : ℤ
  original_price : ℚ
  sale_price : ℚ
  discount_percent : ℕ
  stocking_fee : ℚ
  consignor_share : ℚ
  store_share : ℚ
deriving DecidableEq, Repr

/-- `Payout` dataclass from `core.py`. -/
structure Payout where
  payout_id : String
  consignor_id : String
  payout_date : ℤ
  amount : ℚ
  check_number : Option String
deriving DecidableEq, Repr

/-- `Item` dataclass from `core.py`. -/
structure Item where
  item_id : String
  consignor_id : String
  name : String
  description : String
  original_price : ℚ
  entry_date : ℤ
  status : ItemStatus
  sale_record : Option SaleRecord
  status_date : ℤ
deriving DecidableEq, Repr

/-- `Item.DISCOUNT_SCHEDULE`: `(days_threshold, discount_percentage)` pairs,
in source order. -/
def DISCOUNT_SCHEDULE : List (ℤ × ℕ) := [(90, 75), (60, 50), (30, 25), (0, 0)]

/-- `Item.EXPIRY_DAYS`. -/
def EXPIRY_DAYS : ℤ := 120

/-- `Item.days_since_entry`: `(check_date - self.entry_date).days`, with the
as-of date passed explicitly (the source defaults it to today). -/
def Item.days_since_entry (item : Item) (as_of : ℤ) : ℤ :=
  as_of - item.entry_date

/-- `Item.discount_percent`: first schedule entry whose threshold is at most
the elapsed days wins; `0` if none matches. -/
def Item.discount_percent (item : Item) (as_of : ℤ) : ℕ :=
  match DISCOUNT_SCHEDULE.find? (fun td => td.1 ≤ item.days_since_entry as_of) with
  | some td => td.2
  | none => 0

/-- `Item.current_price`: `original_price * (100 - discount)/100`, quantized
to two fraction digits with `ROUND_HALF_UP`. -/
def Item.current_price (item : Item) (as_of : ℤ) : ℚ :=
  let discount := item.discount_percent as_of
  let multiplier := ((100 - (discount : ℤ) : ℤ) : ℚ) / 100
  quantize2 (item.original_price * multiplier)

/-- `Item.is_expired`: elapsed days `>= EXPIRY_DAYS`. -/
def Item.is_expired (item : Item) (as_of : ℤ) : Bool :=
  EXPIRY_DAYS ≤ item.days_since_entry as_of

/-- `Consignor` dataclass from `core.py`. -/
structure Consignor where
  consignor_id : String
  name : String
  address : Address
  split_percent : ℚ
  stocking_fee : ℚ
  balance : ℚ
  phone : Option String
  email : Option String
  created_date : ℤ
deriving DecidableEq, Repr

/-- `ConsignmentStore` state from `core.py`.  The Python `dict`s keyed by
entity id are embedded as lists looked up via the entity's own id field
(the source only ever inserts an entity under its own id, so key and field
coincide); the `itertools.count` generators are embedded as the natural
number each would yield next. -/
structure ConsignmentStore where
  default_split : ℚ
  default_stocking_fee : ℚ
  consignors : List Consignor
  items : List Item
  payouts : List Payout
  consignor_counter : ℕ
  item_counter : ℕ
  payout_counter : ℕ
deriving DecidableEq, Repr

/-- Errors raised by the `ConsignmentStore` operations, following the spec's
taxonomy: `ValueError "... not found"` is `notFound`, `ValueError "... is not
active"` is `invalidState`, and the unguarded `self._consignors[...]` dict
access in `sell_item` can raise a bare `KeyError`. -/
inductive StoreError
  | notFound (id : String)
  | invalidState (id : String) (status : ItemStatus)
  | keyError (id : String)
deriving DecidableEq, Repr

/-- Left-pad a numeral to six digits: Python's `f"{n:06d}"`. -/
def zfill6 (n : ℕ) : String :=
  let s := toString n
  String.mk (List.replicate (6 - s.length) '0') ++ s

/-- `ConsignmentStore.sell_item`.  Returns the outcome together with the
resulting store state; on every error path the source raises before its
first mutation, so the state is returned unchanged there. -/
def ConsignmentStore.sell_item (s : ConsignmentStore) (item_id : String)
    (sale_date : ℤ) : Except StoreError SaleRecord × ConsignmentStore :=
  match s.items.find? (fun i => i.item_id == item_id) with
  | none => (.error (.notFound item_id), s)
  | some item =>
    if item.status ≠ .active then
      (.error (.invalidState item_id item.status), s)
    else
      match s.consignors.find? (fun c => c.consignor_id == item.consignor_id) with
      | none => (.error (.keyError item.consignor_id), s)
      | some consignor =>
        let discount := item.discount_percent sale_date
        let sale_price := item.current_price sale_date
        let stocking_fee := consignor.stocking_fee
        let net_after_fee := sale_price - stocking_fee
        let consignor_rate := consignor.split_percent / 100
        let consignor_share := quantize2 (net_after_fee * consignor_rate)
        let store_share := sale_price - consignor_share
        -- `if consignor_share < 0:` clamp from the source
        let consignor_share' := if consignor_share < 0 then (0 : ℚ) else consignor_share
        let store_share' := if consignor_share < 0 then sale_price else store_share
        let sale_record : SaleRecord :=
          { item_id := item_id
            sale_date := sale_date
            original_price := item.original_price
            sale_price := sale_price
            discount_percent := discount
            stocking_fee := stocking_fee
            consignor_share := consignor_share'
            store_share := store_share' }
        let item' : Item :=
          { item with status := .sold, status_date := sale_date,
                      sale_record := some sale_record }
        let consignor' : Consignor :=
          { consignor with balance := consignor.balance + consignor_share' }
        let s' : ConsignmentStore :=
          { s with
            items := s.items.map (fun i => if i.item_id == item_id then item' else i)
            consignors := s.consignors.map
              (fun c => if c.consignor_id == item.consignor_id then consignor' else c) }
        (.ok sale_record, s')

/-- `ConsignmentStore.process_payout`.  Returns `none` (no payout) when the
balance is not positive; otherwise creates the payout, appends it, and zeroes
the balance. -/
def ConsignmentStore.process_payout (s : ConsignmentStore) (consignor_id : String)
    (check_number : Option String) (payout_date : ℤ) :
    Except StoreError (Option Payout) × ConsignmentStore :=
  match s.consignors.find? (fun c => c.consignor_id == consignor_id) with
  | none => (.error (.notFound consignor_id), s)
  | some consignor =>
    if consignor.balance ≤ 0 then
      (.ok none, s)
    else
      let payout : Payout :=
        { payout_id := "P" ++ zfill6 s.payout_counter
          consignor_id := consignor_id
          payout_date := payout_date
          amount := consignor.balance
          check_number := check_number }
      let consignor' : Consignor := { consignor with balance := 0 }
      ( .ok (some payout),
        { s with
          consignors := s.consignors.map
            (fun c => if c.consignor_id == consignor_id then consignor' else c)
          payouts := s.payouts ++ [payout]
          payout_counter := s.payout_counter + 1 } )

/-! ### Arithmetic lemmas about the embedded `Decimal` operations -/

theorem floor_intCast_add_half (m : ℤ) : (⌊(m : ℚ) + 1 / 2⌋ : ℤ) = m := by
  rw [Int.floor_eq_iff]
  constructor
  · norm_num
  · linarith

/-- `quantize2` is the identity on values that already have at most two
fraction digits. -/
theorem quantize2_div100 (m : ℤ) : quantize2 ((m : ℚ) / 100) = (m : ℚ) / 100 := by
  unfold quantize2
  by_cases h : (0 : ℚ) ≤ (m : ℚ) / 100
  · rw [if_pos h]
    have e : (m : ℚ) / 100 * 100 + 1 / 2 = (m : ℚ) + 1 / 2 := by
      field_simp
    rw [e, floor_intCast_add_half]
  · rw [if_neg h]
    have e : -((m : ℚ) / 100) * 100 + 1 / 2 = ((-m : ℤ) : ℚ) + 1 / 2 := by
      push_cast
      field_simp
      ring
    rw [e, floor_intCast_add_half]
    push_cast
    ring

/-- `quantize2` (round half away from zero) is monotone. -/
theorem quantize2_mono {a b : ℚ} (h : a ≤ b) : quantize2 a ≤ quantize2 b := by
  unfold quantize2
  by_cases ha : 0 ≤ a <;> by_cases hb : 0 ≤ b
  · rw [if_pos ha, if_pos hb]
    have hf : ⌊a * 100 + 1 / 2⌋ ≤ ⌊b * 100 + 1 / 2⌋ := Int.floor_le_floor (by linarith)
    have : (⌊a * 100 + 1 / 2⌋ : ℚ) ≤ (⌊b * 100 + 1 / 2⌋ : ℚ) := by exact_mod_cast hf
    linarith
  · exact absurd (le_trans ha h) hb
  · rw [if_neg ha, if_pos hb]
    have h1 : (0 : ℤ) ≤ ⌊-a * 100 + 1 / 2⌋ := by
      apply Int.floor_nonneg.mpr
      push_neg at ha
      linarith
    have h2 : (0 : ℤ) ≤ ⌊b * 100 + 1 / 2⌋ := by
      apply Int.floor_nonneg.mpr
      linarith
    have h1q : (0 : ℚ) ≤ (⌊-a * 100 + 1 / 2⌋ : ℚ) := by exact_mod_cast h1
    have h2q : (0 : ℚ) ≤ (⌊b * 100 + 1 / 2⌋ : ℚ) := by exact_mod_cast h2
    nlinarith
  · rw [if_neg ha, if_neg hb]
    have hf : ⌊-b * 100 + 1 / 2⌋ ≤ ⌊-a * 100 + 1 / 2⌋ := Int.floor_le_floor (by linarith)
    have : (⌊-b * 100 + 1 / 2⌋ : ℚ) ≤ (⌊-a * 100 + 1 / 2⌋ : ℚ) := by exact_mod_cast hf
    linarith

/-- The schedule lookup in `Item.discount_percent` unfolded to the
threshold tests it performs. -/
theorem discount_percent_eq (item : Item) (as_of : ℤ) :
    item.discount_percent as_of =
      (if 90 ≤ item.days_since_entry as_of then 75
       else if 60 ≤ item.days_since_entry as_of then 50
       else if 30 ≤ item.days_since_entry as_of then 25
       else 0) := by
  unfold Item.discount_percent DISCOUNT_SCHEDULE
  by_cases h90 : (90 : ℤ) ≤ item.days_since_entry as_of
  · simp [List.find?, h90]
  · by_cases h60 : (60 : ℤ) ≤ item.days_since_entry as_of
    · simp [List.find?, h90, h60]
    · by_cases h30 : (30 : ℤ) ≤ item.days_since_entry as_of
      · simp [List.find?, h90, h60, h30]
      · by_cases h0 : (0 : ℤ) ≤ item.days_since_entry as_of
        · simp [List.find?, h90, h60, h30, h0]
        · simp [List.find?, h90, h60, h30, h0]

/-! ### C6 -/

/-- C6: for every item and as-of date with non-negative elapsed whole days
`a`, the discount percent is 0 on `[0,29]`, 25 on `[30,59]`, 50 on
`[60,89]`, 75 on `[90,119]`, and the item is expired exactly when
`a >= 120`. -/
theorem discount_schedule_c6 (item : Item) (as_of : ℤ)
    (h : 0 ≤ item.days_since_entry as_of) :
    (item.days_since_entry as_of ≤ 29 → item.discount_percent as_of = 0) ∧
    (30 ≤ item.days_since_entry as_of → item.days_since_entry as_of ≤ 59 →
      item.discount_percent as_of = 25) ∧
    (60 ≤ item.days_since_entry as_of → item.days_since_entry as_of ≤ 89 →
      item.discount_percent as_of = 50) ∧
    (90 ≤ item.days_since_entry as_of → item.days_since_entry as_of ≤ 119 →
      item.discount_percent as_of = 75) ∧
    (item.is_expired as_of = true ↔ 120 ≤ item.days_since_entry as_of) := by
  refine ⟨?_, ?_, ?_, ?_, ?_⟩
  · intro h1
    rw [discount_percent_eq]
    split_ifs <;> omega
  · intro h1 h2
    rw [discount_percent_eq]
    split_ifs <;> omega
  · intro h1 h2
    rw [discount_percent_eq]
    split_ifs <;> omega
  · intro h1 h2
    rw [discount_percent_eq]
    split_ifs
    omega
  · simp [Item.is_expired, EXPIRY_DAYS]

/-- Concrete item used to instantiate the discount-schedule theorem. -/
def itemC6 : Item :=
  { item_id := "I000001", consignor_id := "C1001", name := "lamp",
    description := "", original_price := 40, entry_date := 0,
    status := .active, sale_record := none, status_date := 0 }

theorem discount_schedule_c6_witness :
    0 ≤ itemC6.days_since_entry 45 ∧
    ((itemC6.days_since_entry 45 ≤ 29 → itemC6.discount_percent 45 = 0) ∧
     (30 ≤ itemC6.days_since_entry 45 → itemC6.days_since_entry 45 ≤ 59 →
       itemC6.discount_percent 45 = 25) ∧
     (60 ≤ itemC6.days_since_entry 45 → itemC6.days_since_entry 45 ≤ 89 →
       itemC6.discount_percent 45 = 50) ∧
     (90 ≤ itemC6.days_since_entry 45 → itemC6.days_since_entry 45 ≤ 119 →
       itemC6.discount_percent 45 = 75) ∧
     (itemC6.is_expired 45 = true ↔ 120 ≤ itemC6.days_since_entry 45)) :=
  ⟨by decide, discount_schedule_c6 itemC6 45 (by decide)⟩

/-! ### C9 -/

/-- C9 (amended): for a fixed non-negative original price and entry date,
the current price is monotonically non-increasing in the as-of date. -/
theorem current_price_antitone (item : Item) (d₁ d₂ : ℤ)
    (hp : 0 ≤ item.original_price) (h : d₁ ≤ d₂) :
    item.current_price d₂ ≤ item.current_price d₁ := by
  have hd : item.discount_percent d₁ ≤ item.discount_percent d₂ := by
    rw [discount_percent_eq, discount_percent_eq]
    simp only [Item.days_since_entry]
    split_ifs <;> omega
  unfold Item.current_price
  apply quantize2_mono
  have hd' : (item.discount_percent d₁ : ℚ) ≤ (item.discount_percent d₂ : ℚ) := by
    exact_mod_cast hd
  have hm : ((100 - (item.discount_percent d₂ : ℤ) : ℤ) : ℚ) / 100 ≤
      ((100 - (item.discount_percent d₁ : ℤ) : ℤ) : ℚ) / 100 := by
    apply div_le_div_of_nonneg_right ?_ (by norm_num)
    push_cast
    linarith
  calc item.original_price * (((100 - (item.discount_percent d₂ : ℤ) : ℤ) : ℚ) / 100)
      ≤ item.original_price * (((100 - (item.discount_percent d₁ : ℤ) : ℤ) : ℚ) / 100) :=
        mul_le_mul_of_nonneg_left hm hp
    _ = _ := rfl

/-- Concrete item instantiating the monotonicity theorem. -/
def itemC9w : Item :=
  { item_id := "I000002", consignor_id := "C1001", name := "chair",
    description := "", original_price := 100, entry_date := 0,
    status := .active, sale_record := none, status_date := 0 }

theorem current_price_antitone_witness :
    0 ≤ itemC9w.original_price ∧ (0 : ℤ) ≤ 50 ∧
    itemC9w.current_price 50 ≤ itemC9w.current_price 0 :=
  ⟨by norm_num [itemC9w], by norm_num,
   current_price_antitone itemC9w 0 50 (by norm_num [itemC9w]) (by norm_num)⟩

/-- Item with a negative original price: the source accepts it
(`add_item` does not validate the price) and its price rises as the
discount grows. -/
def itemC9 : Item :=
  { item_id := "I000003", consignor_id := "C1001", name := "debt",
    description := "", original_price := -100, entry_date := 0,
    status := .active, sale_record := none, status_date := 0 }

/-- Evaluation rule for `current_price`: if the un-quantized product equals
`m/100` for an integer `m`, quantization is the identity on it. -/
theorem current_price_eq_of (item : Item) (as_of : ℤ) (m : ℤ)
    (h : item.original_price * (100 - (item.discount_percent as_of : ℚ)) = (m : ℚ)) :
    item.current_price as_of = (m : ℚ) / 100 := by
  have e : item.original_price * (((100 - (item.discount_percent as_of : ℤ) : ℤ) : ℚ) / 100)
      = (m : ℚ) / 100 := by
    rw [mul_div_assoc'
      ]
    push_cast
    rw [h]
  simp only [Item.current_price]
  rw [e, quantize2_div100]

/-- C9 counterexample: with original price `-100`, the current price at
day 30 (`-75`) exceeds the current price at day 0 (`-100`), so the claim
as stated (for every fixed original price) is false. -/
theorem current_price_not_antitone :
    ¬ itemC9.current_price 30 ≤ itemC9.current_price 0 := by
  have dp0 : itemC9.discount_percent 0 = 0 := by
    rw [discount_percent_eq]
    norm_num [itemC9, Item.days_since_entry]
  have dp30 : itemC9.discount_percent 30 = 25 := by
    rw [discount_percent_eq]
    norm_num [itemC9, Item.days_since_entry]
  have e0 : itemC9.current_price 0 = ((-10000 : ℤ) : ℚ) / 100 :=
    current_price_eq_of _ _ _ (by rw [dp0]; norm_num [itemC9])
  have e30 : itemC9.current_price 30 = ((-7500 : ℤ) : ℚ) / 100 :=
    current_price_eq_of _ _ _ (by rw [dp30]; norm_num [itemC9])
  rw [e0, e30]
  norm_num

/-! ### C1 -/

/-- `quantize2 0 = 0`. -/
theorem quantize2_zero : quantize2 0 = 0 := by
  have := quantize2_div100 0
  norm_num at this
  exact this

/-- `quantize2` of a non-positive value is non-positive. -/
theorem quantize2_nonpos {a : ℚ} (h : a ≤ 0) : quantize2 a ≤ 0 := by
  have := quantize2_mono h
  rw [quantize2_zero] at this
  exact this

/-- C1: every sale record produced by `sell_item` satisfies
`consignor_share + store_share = sale_price` exactly, and
`consignor_share >= 0`, for any original price, entry date, sale date,
split percent and stocking fee. -/
theorem sell_item_share_invariant (s : ConsignmentStore) (item_id : String)
    (sale_date : ℤ) (r : SaleRecord)
    (h : (s.sell_item item_id sale_date).1 = .ok r) :
    r.consignor_share + r.store_share = r.sale_price ∧ 0 ≤ r.consignor_share := by
  unfold ConsignmentStore.sell_item at h
  rcases hf : s.items.find? (fun i => i.item_id == item_id) with _ | item
  · rw [hf] at h
    exact absurd h (by simp)
  · rw [hf] at h
    dsimp only at h
    by_cases hst : item.status ≠ ItemStatus.active
    · rw [if_pos hst] at h
      exact absurd h (by simp)
    · rw [if_neg hst] at h
      rcases hc : s.consignors.find? (fun c => c.consignor_id == item.consignor_id) with
        _ | consignor
      · rw [hc] at h
        exact absurd h (by simp)
      · rw [hc] at h
        dsimp only at h
        rw [Except.ok.injEq] at h
        subst h
        dsimp only
        by_cases hneg :
          quantize2 ((item.current_price sale_date - consignor.stocking_fee) *
            (consignor.split_percent / 100)) < 0
        · rw [if_pos hneg, if_pos hneg]
          constructor
          · ring
          · exact le_refl 0
        · rw [if_neg hneg, if_neg hneg]
          constructor
          · ring
          · exact not_lt.mp hneg

/-- Evaluation rule: what `sell_item` returns once the item and its owner
have been located and the item is active. -/
theorem sell_item_eval (s : ConsignmentStore) (item_id : String) (d : ℤ)
    (item : Item) (consignor : Consignor) (q : ℚ)
    (hf : s.items.find? (fun i => i.item_id == item_id) = some item)
    (hact : item.status = .active)
    (hc : s.consignors.find? (fun c => c.consignor_id == item.consignor_id) = some consignor)
    (hq : q = quantize2 ((item.current_price d - consignor.stocking_fee) *
      (consignor.split_percent / 100))) :
    (s.sell_item item_id d).1 = .ok
      { item_id := item_id
        sale_date := d
        original_price := item.original_price
        sale_price := item.current_price d
        discount_percent := item.discount_percent d
        stocking_fee := consignor.stocking_fee
        consignor_share := if q < 0 then 0 else q
        store_share := if q < 0 then item.current_price d
          else item.current_price d - q } := by
  subst hq
  unfold ConsignmentStore.sell_item
  rw [hf]
  dsimp only
  rw [if_neg (by rw [hact]; exact fun hcon => hcon rfl), hc]

/-- Concrete store for the C1 witness: default terms, a 100.00 item sold on
day 0, as in the spec's worked example. -/
def consignorW : Consignor :=
  { consignor_id := "C1001", name := "Pat Doe",
    address := { street := "1 Main", city := "Town", state := "TN", zip_code := "37000" },
    split_percent := 60, stocking_fee := 2, balance := 0,
    phone := none, email := none, created_date := 0 }

def itemW : Item :=
  { item_id := "I000001", consignor_id := "C1001", name := "table",
    description := "", original_price := 100, entry_date := 0,
    status := .active, sale_record := none, status_date := 0 }

def storeW : ConsignmentStore :=
  { default_split := 60, default_stocking_fee := 2,
    consignors := [consignorW], items := [itemW], payouts := [],
    consignor_counter := 1002, item_counter := 2, payout_counter := 1 }

/-- The sale record `sell_item` produces for `storeW` on day 0:
sale price 100.00, share `round2((100-2)*0.6) = 58.80`, store share 41.20. -/
def saleW : SaleRecord :=
  { item_id := "I000001", sale_date := 0, original_price := 100,
    sale_price := 100, discount_percent := 0, stocking_fee := 2,
    consignor_share := 294 / 5, store_share := 206 / 5 }

theorem storeW_sell_eval : (storeW.sell_item "I000001" 0).1 = .ok saleW := by
  have dp : itemW.discount_percent 0 = 0 := by
    rw [discount_percent_eq]
    norm_num [itemW, Item.days_since_entry]
  have hsp : itemW.current_price 0 = ((10000 : ℤ) : ℚ) / 100 :=
    current_price_eq_of _ _ _ (by rw [dp]; norm_num [itemW])
  have hq : quantize2 ((itemW.current_price 0 - consignorW.stocking_fee) *
      (consignorW.split_percent / 100)) = 294 / 5 := by
    rw [hsp]
    rw [show ((((10000 : ℤ) : ℚ) / 100 - consignorW.stocking_fee) *
        (consignorW.split_percent / 100)) = ((5880 : ℤ) : ℚ) / 100 by
      norm_num [consignorW]]
    rw [quantize2_div100]
    norm_num
  have := sell_item_eval storeW "I000001" 0 itemW consignorW
    (quantize2 ((itemW.current_price 0 - consignorW.stocking_fee) *
      (consignorW.split_percent / 100))) rfl rfl rfl rfl
  rw [hq] at this
  rw [this]
  have hcond : ¬((294 : ℚ) / 5 < 0) := by norm_num
  simp only [if_neg hcond]
  rw [dp, hsp]
  norm_num [saleW, consignorW, itemW]

theorem sell_item_share_invariant_witness :
    (storeW.sell_item "I000001" 0).1 = .ok saleW ∧
    (saleW.consignor_share + saleW.store_share = saleW.sale_price ∧
      0 ≤ saleW.consignor_share) :=
  ⟨storeW_sell_eval,
   sell_item_share_invariant storeW "I000001" 0 saleW storeW_sell_eval⟩

/-! ### C2 -/

/-- Full evaluation rule for `sell_item` in the successful case: the sale
record returned and the updated store state. -/
theorem sell_item_eval_pair (s : ConsignmentStore) (item_id : String) (d : ℤ)
    (item : Item) (consignor : Consignor) (q : ℚ) (r : SaleRecord)
    (hf : s.items.find? (fun i => i.item_id == item_id) = some item)
    (hact : item.status = .active)
    (hc : s.consignors.find? (fun c => c.consignor_id == item.consignor_id) = some consignor)
    (hq : q = quantize2 ((item.current_price d - consignor.stocking_fee) *
      (consignor.split_percent / 100)))
    (hr : r = { item_id := item_id, sale_date := d,
                original_price := item.original_price,
                sale_price := item.current_price d,
                discount_percent := item.discount_percent d,
                stocking_fee := consignor.stocking_fee,
                consignor_share := if q < 0 then 0 else q,
                store_share := if q < 0 then item.current_price d
                  else item.current_price d - q }) :
    s.sell_item item_id d =
      ( .ok r,
        { s with
          items := s.items.map (fun i => if i.item_id == item_id then
            { item with status := .sold, status_date := d, sale_record := some r }
            else i)
          consignors := s.consignors.map (fun c => if c.consignor_id == item.consignor_id then
            { consignor with balance := consignor.balance + r.consignor_share }
            else c) } ) := by
  subst hr
  subst hq
  unfold ConsignmentStore.sell_item
  rw [hf]
  dsimp only
  rw [if_neg (by rw [hact]; exact fun hcon => hcon rfl), hc]

/-- C2: selling an Active item transitions it to Sold, attaches the sale
record, and credits the owning account's balance by exactly the computed
share (everything else in the store unchanged); selling a non-Active item
fails with InvalidState and leaves the store unchanged. -/
theorem sell_item_transitions (s : ConsignmentStore) (item_id : String)
    (d : ℤ) (item : Item)
    (hf : s.items.find? (fun i => i.item_id == item_id) = some item) :
    (∀ consignor,
      s.consignors.find? (fun c => c.consignor_id == item.consignor_id) = some consignor →
      item.status = .active →
      ∃ r : SaleRecord,
        s.sell_item item_id d =
          ( .ok r,
            { s with
              items := s.items.map (fun i => if i.item_id == item_id then
                { item with status := .sold, status_date := d, sale_record := some r }
                else i)
              consignors := s.consignors.map
                (fun c => if c.consignor_id == item.consignor_id then
                  { consignor with balance := consignor.balance + r.consignor_share }
                  else c) } )) ∧
    (item.status ≠ .active →
      s.sell_item item_id d = (.error (.invalidState item_id item.status), s)) := by
  constructor
  · intro consignor hc hact
    exact ⟨_, sell_item_eval_pair s item_id d item consignor _ _ hf hact hc rfl rfl⟩
  · intro hne
    unfold ConsignmentStore.sell_item
    rw [hf]
    dsimp only
    rw [if_pos hne]

theorem sell_item_transitions_witness :
    (storeW.items.find? (fun i => i.item_id == "I000001") = some itemW) ∧
    ((∀ consignor,
      storeW.consignors.find? (fun c => c.consignor_id == itemW.consignor_id) = some consignor →
      itemW.status = .active →
      ∃ r : SaleRecord,
        storeW.sell_item "I000001" 0 =
          ( .ok r,
            { storeW with
              items := storeW.items.map (fun i => if i.item_id == "I000001" then
                { itemW with status := .sold, status_date := 0, sale_record := some r }
                else i)
              consignors := storeW.consignors.map
                (fun c => if c.consignor_id == itemW.consignor_id then
                  { consignor with balance := consignor.balance + r.consignor_share }
                  else c) } )) ∧
     (itemW.status ≠ .active →
      storeW.sell_item "I000001" 0 = (.error (.invalidState "I000001" itemW.status), storeW))) :=
  ⟨rfl, sell_item_transitions storeW "I000001" 0 itemW rfl⟩

/-! ### C7 -/

/-- C7 (amended): for every sale by an account with a non-negative split
percent in which the stocking fee exceeds the computed sale price, the
account share is exactly 0 and the store share is exactly the sale price. -/
theorem sell_item_fee_clamp (s : ConsignmentStore) (item_id : String) (d : ℤ)
    (r : SaleRecord)
    (hsplit : ∀ c ∈ s.consignors, 0 ≤ c.split_percent)
    (h : (s.sell_item item_id d).1 = .ok r)
    (hfee : r.sale_price < r.stocking_fee) :
    r.consignor_share = 0 ∧ r.store_share = r.sale_price := by
  unfold ConsignmentStore.sell_item at h
  rcases hf : s.items.find? (fun i => i.item_id == item_id) with _ | item
  · rw [hf] at h
    exact absurd h (by simp)
  · rw [hf] at h
    dsimp only at h
    by_cases hst : item.status ≠ ItemStatus.active
    · rw [if_pos hst] at h
      exact absurd h (by simp)
    · rw [if_neg hst] at h
      rcases hc : s.consignors.find? (fun c => c.consignor_id == item.consignor_id) with
        _ | consignor
      · rw [hc] at h
        exact absurd h (by simp)
      · rw [hc] at h
        dsimp only at h
        rw [Except.ok.injEq] at h
        subst h
        dsimp only at hfee ⊢
        have hrate : 0 ≤ consignor.split_percent :=
          hsplit _ (List.mem_of_find?_eq_some hc)
        have hnet : item.current_price d - consignor.stocking_fee ≤ 0 := by linarith
        have hq0 : quantize2 ((item.current_price d - consignor.stocking_fee) *
            (consignor.split_percent / 100)) ≤ 0 :=
          quantize2_nonpos
            (mul_nonpos_of_nonpos_of_nonneg hnet (div_nonneg hrate (by norm_num)))
        by_cases hneg : quantize2 ((item.current_price d - consignor.stocking_fee) *
            (consignor.split_percent / 100)) < 0
        · rw [if_pos hneg, if_pos hneg]
          exact ⟨rfl, rfl⟩
        · have hz : quantize2 ((item.current_price d - consignor.stocking_fee) *
              (consignor.split_percent / 100)) = 0 :=
            le_antisymm hq0 (not_lt.mp hneg)
          rw [if_neg hneg, if_neg hneg, hz]
          exact ⟨rfl, sub_zero _⟩

/-- Account with a negative split percent — accepted by the source, which
never validates `split_percent`. -/
def consignorC7 : Consignor :=
  { consignor_id := "C1001", name := "Neg Split",
    address := { street := "1 Main", city := "Town", state := "TN", zip_code := "37000" },
    split_percent := -100, stocking_fee := 10, balance := 0,
    phone := none, email := none, created_date := 0 }

def itemC7 : Item :=
  { item_id := "I000001", consignor_id := "C1001", name := "small",
    description := "", original_price := 5, entry_date := 0,
    status := .active, sale_record := none, status_date := 0 }

def storeC7 : ConsignmentStore :=
  { default_split := 60, default_stocking_fee := 2,
    consignors := [consignorC7], items := [itemC7], payouts := [],
    consignor_counter := 1002, item_counter := 2, payout_counter := 1 }

/-- The sale `storeC7` produces: fee 10.00 exceeds price 5.00, yet the
share is `round2((5-10)*(-100/100)) = 5`, not 0. -/
def saleC7 : SaleRecord :=
  { item_id := "I000001", sale_date := 0, original_price := 5,
    sale_price := 5, discount_percent := 0, stocking_fee := 10,
    consignor_share := 5, store_share := 0 }

/-- C7 counterexample: with a (unvalidated) negative split percent, a sale
whose stocking fee exceeds the sale price yields a non-zero account share,
so the claim as stated (over every sale) is false. -/
theorem sell_item_fee_clamp_counterexample :
    (storeC7.sell_item "I000001" 0).1 = .ok saleC7 ∧
    saleC7.sale_price < saleC7.stocking_fee ∧
    saleC7.consignor_share ≠ 0 := by
  have dp : itemC7.discount_percent 0 = 0 := by
    rw [discount_percent_eq]
    norm_num [itemC7, Item.days_since_entry]
  have hsp : itemC7.current_price 0 = ((500 : ℤ) : ℚ) / 100 :=
    current_price_eq_of _ _ _ (by rw [dp]; norm_num [itemC7])
  have hq : quantize2 ((itemC7.current_price 0 - consignorC7.stocking_fee) *
      (consignorC7.split_percent / 100)) = 5 := by
    rw [hsp]
    rw [show ((((500 : ℤ) : ℚ) / 100 - consignorC7.stocking_fee) *
        (consignorC7.split_percent / 100)) = ((500 : ℤ) : ℚ) / 100 by
      norm_num [consignorC7]]
    rw [quantize2_div100]
    norm_num
  have := sell_item_eval storeC7 "I000001" 0 itemC7 consignorC7
    (quantize2 ((itemC7.current_price 0 - consignorC7.stocking_fee) *
      (consignorC7.split_percent / 100))) rfl rfl rfl rfl
  rw [hq] at this
  refine ⟨?_, by norm_num [saleC7], by norm_num [saleC7]⟩
  rw [this]
  have hcond : ¬((5 : ℚ) < 0) := by norm_num
  simp only [if_neg hcond]
  rw [dp, hsp]
  norm_num [saleC7, consignorC7, itemC7]

/-- Store exercising the clamp with ordinary terms: 60% split, fee 10.00,
price 5.00. -/
def consignorC7w : Consignor :=
  { consignor_id := "C1001", name := "Clamped",
    address := { street := "1 Main", city := "Town", state := "TN", zip_code := "37000" },
    split_percent := 60, stocking_fee := 10, balance := 0,
    phone := none, email := none, created_date := 0 }

def itemC7w : Item :=
  { item_id := "I000001", consignor_id := "C1001", name := "small",
    description := "", original_price := 5, entry_date := 0,
    status := .active, sale_record := none, status_date := 0 }

def storeC7w : ConsignmentStore :=
  { default_split := 60, default_stocking_fee := 2,
    consignors := [consignorC7w], items := [itemC7w], payouts := [],
    consignor_counter := 1002, item_counter := 2, payout_counter := 1 }

/-- The clamped sale for `storeC7w`: `round2((5-10)*0.6) = -3 < 0`, so the
share is clamped to 0 and the store share is the full price. -/
def saleC7w : SaleRecord :=
  { item_id := "I000001", sale_date := 0, original_price := 5,
    sale_price := 5, discount_percent := 0, stocking_fee := 10,
    consignor_share := 0, store_share := 5 }

theorem storeC7w_sell_eval : (storeC7w.sell_item "I000001" 0).1 = .ok saleC7w := by
  have dp : itemC7w.discount_percent 0 = 0 := by
    rw [discount_percent_eq]
    norm_num [itemC7w, Item.days_since_entry]
  have hsp : itemC7w.current_price 0 = ((500 : ℤ) : ℚ) / 100 :=
    current_price_eq_of _ _ _ (by rw [dp]; norm_num [itemC7w])
  have hq : quantize2 ((itemC7w.current_price 0 - consignorC7w.stocking_fee) *
      (consignorC7w.split_percent / 100)) = -3 := by
    rw [hsp]
    rw [show ((((500 : ℤ) : ℚ) / 100 - consignorC7w.stocking_fee) *
        (consignorC7w.split_percent / 100)) = ((-300 : ℤ) : ℚ) / 100 by
      norm_num [consignorC7w]]
    rw [quantize2_div100]
    norm_num
  have := sell_item_eval storeC7w "I000001" 0 itemC7w consignorC7w
    (quantize2 ((itemC7w.current_price 0 - consignorC7w.stocking_fee) *
      (consignorC7w.split_percent / 100))) rfl rfl rfl rfl
  rw [hq] at this
  rw [this]
  have hcond : ((-3 : ℚ) < 0) := by norm_num
  simp only [if_pos hcond]
  rw [dp, hsp]
  norm_num [saleC7w, consignorC7w, itemC7w]

theorem sell_item_fee_clamp_witness :
    (∀ c ∈ storeC7w.consignors, 0 ≤ c.split_percent) ∧
    (storeC7w.sell_item "I000001" 0).1 = .ok saleC7w ∧
    saleC7w.sale_price < saleC7w.stocking_fee ∧
    (saleC7w.consignor_share = 0 ∧ saleC7w.store_share = saleC7w.sale_price) :=
  ⟨by
    intro c hcm
    simp only [storeC7w, List.mem_singleton] at hcm
    subst hcm
    norm_num [consignorC7w],
   storeC7w_sell_eval,
   by norm_num [saleC7w],
   sell_item_fee_clamp storeC7w "I000001" 0 saleC7w
     (by
       intro c hcm
       simp only [storeC7w, List.mem_singleton] at hcm
       subst hcm
       norm_num [consignorC7w])
     storeC7w_sell_eval
     (by norm_num [saleC7w])⟩

/-! ### C8 -/

/-- C8: `process_payout` on a zero balance returns no payout and leaves the
store unchanged; on a positive balance it creates exactly one new payout
for the full prior balance, appends it, and zeroes the balance. -/
theorem process_payout_c8 (s : ConsignmentStore) (cid : String)
    (chk : Option String) (d : ℤ) (consignor : Consignor)
    (hc : s.consignors.find? (fun c => c.consignor_id == cid) = some consignor) :
    (consignor.balance = 0 → s.process_payout cid chk d = (.ok none, s)) ∧
    (0 < consignor.balance →
      ∃ p : Payout,
        s.process_payout cid chk d =
          ( .ok (some p),
            { s with
              consignors := s.consignors.map (fun c => if c.consignor_id == cid then
                { consignor with balance := 0 } else c)
              payouts := s.payouts ++ [p]
              payout_counter := s.payout_counter + 1 } ) ∧
        p.amount = consignor.balance) := by
  constructor
  · intro h0
    unfold ConsignmentStore.process_payout
    rw [hc]
    dsimp only
    rw [if_pos (by rw [h0])]
  · intro hpos
    unfold ConsignmentStore.process_payout
    rw [hc]
    dsimp only
    rw [if_neg (not_le.mpr hpos)]
    exact ⟨_, rfl, rfl⟩

/-- Account with a positive balance for the payout witness. -/
def consignorC8 : Consignor :=
  { consignor_id := "C1001", name := "Paid Out",
    address := { street := "1 Main", city := "Town", state := "TN", zip_code := "37000" },
    split_percent := 60, stocking_fee := 2, balance := 50,
    phone := none, email := none, created_date := 0 }

def storeC8 : ConsignmentStore :=
  { default_split := 60, default_stocking_fee := 2,
    consignors := [consignorC8], items := [], payouts := [],
    consignor_counter := 1002, item_counter := 1, payout_counter := 1 }

theorem process_payout_c8_witness :
    (storeC8.consignors.find? (fun c => c.consignor_id == "C1001") = some consignorC8) ∧
    ((consignorC8.balance = 0 → storeC8.process_payout "C1001" none 10 = (.ok none, storeC8)) ∧
     (0 < consignorC8.balance →
      ∃ p : Payout,
        storeC8.process_payout "C1001" none 10 =
          ( .ok (some p),
            { storeC8 with
              consignors := storeC8.consignors.map (fun c => if c.consignor_id == "C1001" then
                { consignorC8 with balance := 0 } else c)
              payouts := storeC8.payouts ++ [p]
              payout_counter := storeC8.payout_counter + 1 } ) ∧
        p.amount = consignorC8.balance)) :=
  ⟨rfl, process_payout_c8 storeC8 "C1001" none 10 consignorC8 rfl⟩

end Fetters

/-!
## Persistence layer (`storage.py`)

`storage.py` imports the `Account`-variant core (`from core import ...,
Account, ...`): a renamed evolution of the `Consignor` module above, with
split first/last name, an `account_type`, and a `category_id` on items.
That module itself is not in the source tree; the entity shapes below are
modelled from the spec (§3) and from the exact columns `storage.py` reads
and writes.  Entity ids (`A1001`, `I000001`, `P000001`) are embedded as
their numeric suffixes; the rendering prefix+zero-padding is a bijection
whose inverse is the `int(id[1:])` used by `save_store_config`.
-/

namespace Storage

/-- `sync_status` column values. -/
inductive RowStatus
  | pending
  | synced
deriving DecidableEq, Repr

/-- Raw content of a `DECIMAL` column cell as `safe_decimal` receives it:
either a value that parses as a decimal, or one that raises
`InvalidOperation`/`ValueError`/`TypeError` when parsed. -/
inductive DecVal
  | parsed (q : ℚ)
  | unparseable
deriving DecidableEq, Repr

/-- `safe_decimal` from `storage.py`: parse failures yield the default, and
any parsed value whose absolute value strictly exceeds `10^10` (ten
billion) yields the default; both the scientific-notation branch and the
plain branch apply the same strict bound. -/
def safe_decimal (value : DecVal) (default : ℚ) : ℚ :=
  match value with
  | .unparseable => default
  | .parsed q => if 10 ^ 10 < |q| then default else q

/-- Modelled from the spec: the `Account` entity of the missing
Account-variant core, with the fields `storage.py` persists. -/
structure Account where
  account_id : ℕ
  first_name : String
  last_name : String
  account_type : String
  address : Fetters.Address
  phone : Option String
  email : Option String
  split_percent : ℚ
  stocking_fee : ℚ
  balance : ℚ
  created_date : ℤ
deriving DecidableEq, Repr

/-- Modelled from the spec: the Account-variant `SaleRecord` (`sales`
columns use `account_share`/`store_share`). -/
structure SaleRecordS where
  item_id : ℕ
  sale_date : ℤ
  original_price : ℚ
  sale_price : ℚ
  discount_percent : ℕ
  stocking_fee : ℚ
  account_share : ℚ
  store_share : ℚ
deriving DecidableEq, Repr

/-- Modelled from the spec: the Account-variant `Item`, which carries the
`category_id` that `save_item` tries to persist. -/
structure ItemS where
  item_id : ℕ
  account_id : ℕ
  name : String
  description : String
  original_price : ℚ
  entry_date : ℤ
  status : Fetters.ItemStatus
  sale_record : Option SaleRecordS
  status_date : ℤ
  category_id : Option ℤ
deriving DecidableEq, Repr

/-- Modelled from the spec: the Account-variant `Payout`. -/
structure PayoutS where
  payout_id : ℕ
  account_id : ℕ
  payout_date : ℤ
  amount : ℚ
  check_number : Option String
deriving DecidableEq, Repr

/-- Modelled from the spec: the Account-variant `ConsignmentStore`
aggregate that `save_store`/`load_store` serialise. -/
structure StoreS where
  default_split : ℚ
  default_stocking_fee : ℚ
  accounts : List Account
  items : List ItemS
  payouts : List PayoutS
  account_counter : ℕ
  item_counter : ℕ
  payout_counter : ℕ
deriving DecidableEq, Repr

/-- Columns of the `accounts` table as created by `_init_database`. -/
def accounts_table_columns : List String :=
  ["account_id", "first_name", "last_name", "account_type", "street", "city",
   "state", "zip_code", "phone", "email", "split_percent", "stocking_fee",
   "balance", "created_date", "modified_at", "sync_status"]

/-- Columns named by `save_account`'s INSERT. -/
def save_account_insert_columns : List String :=
  ["account_id", "first_name", "last_name", "account_type", "street", "city",
   "state", "zip_code", "phone", "email", "split_percent", "stocking_fee",
   "balance", "created_date", "modified_at", "sync_status"]

/-- Columns of the `items` table as created by `_init_database` — note:
no `category_id`. -/
def items_table_columns : List String :=
  ["item_id", "account_id", "name", "description", "original_price",
   "entry_date", "status", "status_date", "modified_at", "sync_status"]

/-- Columns named by `save_item`'s INSERT — including `category_id`. -/
def save_item_insert_columns : List String :=
  ["item_id", "account_id", "name", "description", "original_price",
   "entry_date", "status", "status_date", "category_id", "modified_at",
   "sync_status"]

/-- Columns of the `sales` table as created by `_init_database`. -/
def sales_table_columns : List String :=
  ["item_id", "sale_date", "original_price", "sale_price", "discount_percent",
   "stocking_fee", "account_share", "store_share", "modified_at", "sync_status"]

/-- Columns named by the `sales` INSERT inside `save_item`. -/
def save_sales_insert_columns : List String :=
  ["item_id", "sale_date", "original_price", "sale_price", "discount_percent",
   "stocking_fee", "account_share", "store_share", "modified_at", "sync_status"]

/-- Columns of the `payouts` table as created by `_init_database`. -/
def payouts_table_columns : List String :=
  ["payout_id", "account_id", "payout_date", "amount", "check_number",
   "modified_at", "sync_status"]

/-- Columns named by `save_payout`'s INSERT. -/
def save_payout_insert_columns : List String :=
  ["payout_id", "account_id", "payout_date", "amount", "check_number",
   "modified_at", "sync_status"]

/-- SQLite rejects an INSERT naming a column the table does not have
(`sqlite3.OperationalError: table ... has no column named ...`). -/
inductive SqlError
  | no_such_column (table : String) (column : String)
deriving DecidableEq, Repr

/-- First column named by an INSERT that the table schema lacks, if any. -/
def missing_column (table_cols : List String) (insert_cols : List String) :
    Option String :=
  insert_cols.find? (fun c => !(table_cols.contains c))

/-- `accounts` table row (schema columns; decimal cells kept raw). -/
structure AccountRow where
  account_id : ℕ
  first_name : String
  last_name : String
  account_type : String
  street : String
  city : String
  state : String
  zip_code : String
  phone : Option String
  email : Option String
  split_percent : DecVal
  stocking_fee : DecVal
  balance : DecVal
  created_date : ℤ
deriving DecidableEq, Repr

/-- `items` table row: exactly the schema's columns (no `category_id`). -/
structure ItemRow where
  item_id : ℕ
  account_id : ℕ
  name : String
  description : String
  original_price : DecVal
  entry_date : ℤ
  status : String
  status_date : ℤ
deriving DecidableEq, Repr

/-- `sales` table row. -/
structure SaleRow where
  item_id : ℕ
  sale_date : ℤ
  original_price : DecVal
  sale_price : DecVal
  discount_percent : ℕ
  stocking_fee : DecVal
  account_share : DecVal
  store_share : DecVal
deriving DecidableEq, Repr

/-- `payouts` table row. -/
structure PayoutRow where
  payout_id : ℕ
  account_id : ℕ
  payout_date : ℤ
  amount : DecVal
  check_number : Option String
deriving DecidableEq, Repr

/-- The local SQLite database state touched by `save_store`/`load_store`.
The `store_config` table is represented by the five keys this code ever
writes; `modified_at` timestamps are wall-clock metadata outside the
model. -/
structure DB where
  default_split : Option (ℚ × RowStatus)
  default_stocking_fee : Option (ℚ × RowStatus)
  account_counter : Option (ℕ × RowStatus)
  item_counter : Option (ℕ × RowStatus)
  payout_counter : Option (ℕ × RowStatus)
  accounts : List (AccountRow × RowStatus)
  items : List (ItemRow × RowStatus)
  sales : List (SaleRow × RowStatus)
  payouts : List (PayoutRow × RowStatus)
deriving DecidableEq, Repr

def emptyDB : DB :=
  { default_split := none, default_stocking_fee := none,
    account_counter := none, item_counter := none, payout_counter := none,
    accounts := [], items := [], sales := [], payouts := [] }

/-- `ItemStatus.value` strings. -/
def status_value : Fetters.ItemStatus → String
  | .active => "active"
  | .sold => "sold"
  | .returned => "returned"
  | .expired => "expired"

def account_to_row (a : Account) : AccountRow :=
  { account_id := a.account_id, first_name := a.first_name,
    last_name := a.last_name, account_type := a.account_type,
    street := a.address.street, city := a.address.city,
    state := a.address.state, zip_code := a.address.zip_code,
    phone := a.phone, email := a.email,
    split_percent := .parsed a.split_percent,
    stocking_fee := .parsed a.stocking_fee,
    balance := .parsed a.balance, created_date := a.created_date }

def item_to_row (i : ItemS) : ItemRow :=
  { item_id := i.item_id, account_id := i.account_id, name := i.name,
    description := i.description, original_price := .parsed i.original_price,
    entry_date := i.entry_date, status := status_value i.status,
    status_date := i.status_date }

def sale_to_row (s : SaleRecordS) : SaleRow :=
  { item_id := s.item_id, sale_date := s.sale_date,
    original_price := .parsed s.original_price,
    sale_price := .parsed s.sale_price,
    discount_percent := s.discount_percent,
    stocking_fee := .parsed s.stocking_fee,
    account_share := .parsed s.account_share,
    store_share := .parsed s.store_share }

def payout_to_row (p : PayoutS) : PayoutRow :=
  { payout_id := p.payout_id, account_id := p.account_id,
    payout_date := p.payout_date, amount := .parsed p.amount,
    check_number := p.check_number }

/-- `INSERT OR REPLACE`: replace the row with the same primary key, else
append; the fresh row is stamped `sync_status = 'pending'`. -/
def upsert_account (t : List (AccountRow × RowStatus)) (r : AccountRow) :
    List (AccountRow × RowStatus) :=
  if t.any (fun x => x.1.account_id == r.account_id) then
    t.map (fun x => if x.1.account_id == r.account_id then (r, .pending) else x)
  else t ++ [(r, .pending)]

def upsert_item (t : List (ItemRow × RowStatus)) (r : ItemRow) :
    List (ItemRow × RowStatus) :=
  if t.any (fun x => x.1.item_id == r.item_id) then
    t.map (fun x => if x.1.item_id == r.item_id then (r, .pending) else x)
  else t ++ [(r, .pending)]

def upsert_sale (t : List (SaleRow × RowStatus)) (r : SaleRow) :
    List (SaleRow × RowStatus) :=
  if t.any (fun x => x.1.item_id == r.item_id) then
    t.map (fun x => if x.1.item_id == r.item_id then (r, .pending) else x)
  else t ++ [(r, .pending)]

def upsert_payout (t : List (PayoutRow × RowStatus)) (r : PayoutRow) :
    List (PayoutRow × RowStatus) :=
  if t.any (fun x => x.1.payout_id == r.payout_id) then
    t.map (fun x => if x.1.payout_id == r.payout_id then (r, .pending) else x)
  else t ++ [(r, .pending)]

/-- `save_account`: upsert keyed on `account_id`, marking the row pending;
the engine first checks every INSERT column against the schema. -/
def save_account (db : DB) (a : Account) : Except SqlError DB :=
  match missing_column accounts_table_columns save_account_insert_columns with
  | some c => .error (.no_such_column "accounts" c)
  | none => .ok { db with accounts := upsert_account db.accounts (account_to_row a) }

/-- `save_item`: upsert of the item row and, when a sale record is
attached, of the `sales` row, in one transaction.  The INSERT names
`category_id`, which the `items` schema does not have, so the column
check fails before anything is written. -/
def save_item (db : DB) (i : ItemS) : Except SqlError DB :=
  match missing_column items_table_columns save_item_insert_columns with
  | some c => .error (.no_such_column "items" c)
  | none =>
    let db1 := { db with items := upsert_item db.items (item_to_row i) }
    match i.sale_record with
    | none => .ok db1
    | some sale =>
      match missing_column sales_table_columns save_sales_insert_columns with
      | some c => .error (.no_such_column "sales" c)
      | none => .ok { db1 with sales := upsert_sale db1.sales (sale_to_row sale) }

def save_payout (db : DB) (p : PayoutS) : Except SqlError DB :=
  match missing_column payouts_table_columns save_payout_insert_columns with
  | some c => .error (.no_such_column "payouts" c)
  | none => .ok { db with payouts := upsert_payout db.payouts (payout_to_row p) }

/-- `save_store_config`: always writes the two defaults; writes each
counter key only when the respective collection is non-empty, as the max
numeric id suffix plus one. -/
def save_store_config (db : DB) (s : StoreS) : DB :=
  let db1 := { db with
    default_split := some (s.default_split, .pending),
    default_stocking_fee := some (s.default_stocking_fee, .pending) }
  let max_account := (s.accounts.map (fun a => a.account_id)).foldl Nat.max 0
  let max_item := (s.items.map (fun i => i.item_id)).foldl Nat.max 0
  let max_payout := (s.payouts.map (fun p => p.payout_id)).foldl Nat.max 0
  let db2 := if s.accounts.isEmpty then db1 else
    { db1 with account_counter := some (max_account + 1, .pending) }
  let db3 := if s.items.isEmpty then db2 else
    { db2 with item_counter := some (max_item + 1, .pending) }
  if s.payouts.isEmpty then db3 else
    { db3 with payout_counter := some (max_payout + 1, .pending) }

/-- `save_store`: config, then every account, item (with embedded sale)
and payout. -/
def save_store (db : DB) (s : StoreS) : Except SqlError DB := do
  let db1 := save_store_config db s
  let db2 ← s.accounts.foldlM save_account db1
  let db3 ← s.items.foldlM save_item db2
  s.payouts.foldlM save_payout db3

/-! ### C5 -/

def accountC5 : Account :=
  { account_id := 1001, first_name := "Pat", last_name := "Doe",
    account_type := "consignment",
    address := { street := "1 Main", city := "Town", state := "TN", zip_code := "37000" },
    phone := none, email := none,
    split_percent := 60, stocking_fee := 2, balance := 0, created_date := 0 }

def itemC5 : ItemS :=
  { item_id := 1, account_id := 1001, name := "table", description := "",
    original_price := 100, entry_date := 0, status := .active,
    sale_record := none, status_date := 0, category_id := none }

def storeC5 : StoreS :=
  { default_split := 60, default_stocking_fee := 2,
    accounts := [accountC5], items := [itemC5], payouts := [],
    account_counter := 1002, item_counter := 2, payout_counter := 1 }

/-- C5: saving any store that contains an item fails — `save_item`'s
INSERT names the `category_id` column, which `_init_database` never adds
to the `items` table, so the save/load round trip never completes.
Evaluated at a one-account, one-item store against a freshly initialised
database. -/
theorem save_store_category_column_bug :
    save_store emptyDB storeC5 = .error (.no_such_column "items" "category_id") ∧
    save_item_insert_columns.contains "category_id" = true ∧
    items_table_columns.contains "category_id" = false :=
  ⟨rfl, rfl, rfl⟩

/-! ### C10 -/

/-- `_row_to_account`: every monetary column goes through `safe_decimal`
with the default `0.00`. -/
def row_to_account (row : AccountRow) : Account :=
  { account_id := row.account_id, first_name := row.first_name,
    last_name := row.last_name, account_type := row.account_type,
    address := { street := row.street, city := row.city, state := row.state,
                 zip_code := row.zip_code },
    phone := row.phone, email := row.email,
    split_percent := safe_decimal row.split_percent 0,
    stocking_fee := safe_decimal row.stocking_fee 0,
    balance := safe_decimal row.balance 0,
    created_date := row.created_date }

/-- `_row_to_payout`: the amount goes through `safe_decimal`. -/
def row_to_payout (row : PayoutRow) : PayoutS :=
  { payout_id := row.payout_id, account_id := row.account_id,
    payout_date := row.payout_date,
    amount := safe_decimal row.amount 0,
    check_number := row.check_number }

/-- C10: monetary fields read back from storage are sanitised: a cell
that fails to parse loads as the default 0.00, and a parsed value whose
absolute value exceeds `10^10` also loads as 0.00 — in particular a saved
balance greater than `10^10` does not load back as itself. -/
theorem safe_decimal_sanitizes (row : AccountRow) (p : PayoutRow) (q : ℚ)
    (h : 10 ^ 10 < |q|) :
    safe_decimal (.parsed q) 0 = 0 ∧
    safe_decimal .unparseable 0 = 0 ∧
    (row_to_account { row with balance := .parsed q }).balance = 0 ∧
    (row_to_account { row with split_percent := .unparseable }).split_percent = 0 ∧
    (row_to_payout { p with amount := .parsed q }).amount = 0 ∧
    (row_to_account { row with balance := .parsed q }).balance ≠ q ∧
    (∀ q' : ℚ, |q'| ≤ 10 ^ 10 → safe_decimal (.parsed q') 0 = q') := by
  have hcl : safe_decimal (.parsed q) 0 = 0 := by
    simp only [safe_decimal]
    rw [if_pos h]
  have hq0 : q ≠ 0 := by
    intro h0
    rw [h0] at h
    norm_num at h
  refine ⟨hcl, rfl, ?_, ?_, ?_, ?_, ?_⟩
  · simp [row_to_account, hcl]
  · simp [row_to_account, safe_decimal]
  · simp [row_to_payout, hcl]
  · simp [row_to_account, hcl]
    exact fun hbad => hq0 hbad.symm
  · intro q' hq'
    simp only [safe_decimal]
    rw [if_neg (not_lt.mpr hq')]

/-- Concrete account row: well-formed except for a 20-billion balance. -/
def rowC10 : AccountRow :=
  { account_id := 1001, first_name := "Pat", last_name := "Doe",
    account_type := "consignment", street := "1 Main", city := "Town",
    state := "TN", zip_code := "37000", phone := none, email := none,
    split_percent := .parsed 60, stocking_fee := .parsed 2,
    balance := .parsed 0, created_date := 0 }

def payoutRowC10 : PayoutRow :=
  { payout_id := 1, account_id := 1001, payout_date := 0,
    amount := .parsed 50, check_number := none }

theorem safe_decimal_sanitizes_witness :
    10 ^ 10 < |(20000000000 : ℚ)| ∧
    (safe_decimal (.parsed 20000000000) 0 = 0 ∧
     safe_decimal .unparseable 0 = 0 ∧
     (row_to_account { rowC10 with balance := .parsed 20000000000 }).balance = 0 ∧
     (row_to_account { rowC10 with split_percent := .unparseable }).split_percent = 0 ∧
     (row_to_payout { payoutRowC10 with amount := .parsed 20000000000 }).amount = 0 ∧
     (row_to_account { rowC10 with balance := .parsed 20000000000 }).balance ≠ 20000000000 ∧
     (∀ q' : ℚ, |q'| ≤ 10 ^ 10 → safe_decimal (.parsed q') 0 = q')) :=
  ⟨by norm_num,
   safe_decimal_sanitizes rowC10 payoutRowC10 20000000000 (by norm_num)⟩

end Storage

/-!
## Sync engine (`cloud_sync.py`)

Rows crossing the sync boundary are the loosely-typed dictionaries the
source passes around (`dict(row)` / the literal dicts built by
`pull_full`); they are embedded as association lists from column name to
value.  A missing key is Python's `KeyError`, embedded in `Except`.  The
remote round trip itself is modelled as always reachable: the behaviour
under scrutiny is the local bookkeeping, and every remote write computed
inside the `try` block is discarded when an exception aborts the block
(the uncommitted remote transaction rolls back).
-/

namespace Sync

/-- A column value as stored in a row dict: text, integer, or `None`. -/
inductive Value
  | s (v : String)
  | i (v : ℤ)
  | null
deriving DecidableEq, BEq, Repr

/-- A row dictionary: column name to value. -/
abbrev Row := List (String × Value)

/-- `d[k]` for an association list, as `Option`. -/
def dict_get {α : Type} (d : List (String × α)) (k : String) : Option α :=
  (d.find? (fun kv => kv.1 == k)).map (fun kv => kv.2)

/-- `d[k]` with Python semantics: `KeyError` when the key is absent. -/
def getitem {α : Type} (d : List (String × α)) (k : String) :
    Except String α :=
  match dict_get d k with
  | some v => .ok v
  | none => .error ("KeyError: " ++ k)

/-- A `sync_log` entry (start/completion timestamps are wall-clock
metadata outside the model). -/
structure SyncLogEntry where
  sync_type : String
  status : String
  records_synced : ℕ
  error_message : Option String
deriving DecidableEq, Repr

/-- The local database as the sync engine sees it: per-table rows with
their `sync_status`, plus the `sync_log` journal. -/
structure LocalDB where
  store_config : List (Row × Storage.RowStatus)
  accounts : List (Row × Storage.RowStatus)
  items : List (Row × Storage.RowStatus)
  sales : List (Row × Storage.RowStatus)
  payouts : List (Row × Storage.RowStatus)
  sync_log : List SyncLogEntry
deriving DecidableEq, Repr

/-- `log_sync`: insert a journal entry, returning its id (its index). -/
def log_sync (db : LocalDB) (sync_type : String) (status : String) :
    ℕ × LocalDB :=
  ( db.sync_log.length,
    { db with sync_log := db.sync_log ++
        [{ sync_type := sync_type, status := status, records_synced := 0,
           error_message := none }] } )

/-- `update_sync_log`: update the entry with the given id. -/
def update_sync_log (db : LocalDB) (log_id : ℕ) (status : String)
    (records : ℕ) (err : Option String) : LocalDB :=
  { db with sync_log := db.sync_log.mapIdx (fun idx e =>
      if idx = log_id then
        { e with status := status, records_synced := records,
                 error_message := err }
      else e) }

/-- Rows of a table with `sync_status = 'pending'`, as plain dicts. -/
def pending_rows (t : List (Row × Storage.RowStatus)) : List Row :=
  (t.filter (fun r => r.2 == Storage.RowStatus.pending)).map (fun r => r.1)

/-- `ConsignmentStorage.get_pending_changes`: the dict of pending rows,
keyed `config` / `accounts` / `items` / `sales` / `payouts`. -/
def get_pending_changes (db : LocalDB) : List (String × List Row) :=
  [("config", pending_rows db.store_config),
   ("accounts", pending_rows db.accounts),
   ("items", pending_rows db.items),
   ("sales", pending_rows db.sales),
   ("payouts", pending_rows db.payouts)]

/-- `ConsignmentStorage.mark_all_synced`. -/
def mark_all_synced (db : LocalDB) : LocalDB :=
  { db with
    store_config := db.store_config.map (fun r => (r.1, Storage.RowStatus.synced)),
    accounts := db.accounts.map (fun r => (r.1, Storage.RowStatus.synced)),
    items := db.items.map (fun r => (r.1, Storage.RowStatus.synced)),
    sales := db.sales.map (fun r => (r.1, Storage.RowStatus.synced)),
    payouts := db.payouts.map (fun r => (r.1, Storage.RowStatus.synced)) }

/-- `ConsignmentStorage.clear_all_data`: deletes all rows of the data
tables (not the journal). -/
def clear_all_data (db : LocalDB) : LocalDB :=
  { db with store_config := [], accounts := [], items := [], sales := [],
            payouts := [] }

/-- The remote PostgreSQL tables reachable by `push_changes`'s upserts. -/
structure RemoteDB where
  store_config : List Row
  consignors : List Row
  items : List Row
  sales : List Row
  payouts : List Row
deriving DecidableEq, Repr

def emptyRemote : RemoteDB :=
  { store_config := [], consignors := [], items := [], sales := [],
    payouts := [] }

/-- Remote upsert by natural key (`INSERT ... ON CONFLICT (k) DO UPDATE`). -/
def upsert_remote (t : List Row) (keycol : String) (k : Value) (row : Row) :
    List Row :=
  if t.any (fun r => dict_get r keycol == some k) then
    t.map (fun r => if dict_get r keycol == some k then row else r)
  else t ++ [row]

/-- Parameters each push statement binds from the row dict, in source
order (accessing a missing one raises `KeyError`). -/
def config_params : List String := ["key", "value", "modified_at"]

def consignors_params : List String :=
  ["consignor_id", "name", "street", "city", "state", "zip_code", "phone",
   "email", "split_percent", "stocking_fee", "balance", "created_date",
   "modified_at"]

def items_params : List String :=
  ["item_id", "consignor_id", "name", "description", "original_price",
   "entry_date", "status", "status_date", "modified_at"]

def sales_params : List String :=
  ["item_id", "sale_date", "original_price", "sale_price",
   "discount_percent", "stocking_fee", "consignor_share", "store_share",
   "modified_at"]

def payouts_params : List String :=
  ["payout_id", "consignor_id", "payout_date", "amount", "check_number",
   "modified_at"]

/-- One remote upsert: bind every parameter from the row (KeyError if one
is missing), then upsert by the natural key column. -/
def push_row (params : List String) (keycol : String) (t : List Row)
    (row : Row) : Except String (List Row) := do
  let _ ← params.mapM (getitem row)
  let k ← getitem row keycol
  .ok (upsert_remote t keycol k row)

/-- The body of `push_changes`'s `try` block: reads the pending-change
dict and pushes each table's rows.  It indexes the dict with
`changes['consignors']`, a key `get_pending_changes` never produces
(it produces `accounts`), so this raises `KeyError: consignors`. -/
def push_changes_body (db : LocalDB) (remote : RemoteDB) :
    Except String (ℕ × RemoteDB) := do
  let changes := get_pending_changes db
  let config ← getitem changes "config"
  let rconfig ← config.foldlM (fun t row => push_row config_params "key" t row)
    remote.store_config
  let consignors ← getitem changes "consignors"
  let rconsignors ← consignors.foldlM
    (fun t row => push_row consignors_params "consignor_id" t row)
    remote.consignors
  let items ← getitem changes "items"
  let ritems ← items.foldlM (fun t row => push_row items_params "item_id" t row)
    remote.items
  let sales ← getitem changes "sales"
  let rsales ← sales.foldlM (fun t row => push_row sales_params "item_id" t row)
    remote.sales
  let payouts ← getitem changes "payouts"
  let rpayouts ← payouts.foldlM
    (fun t row => push_row payouts_params "payout_id" t row)
    remote.payouts
  let total := config.length + consignors.length + items.length +
    sales.length + payouts.length
  .ok (total,
    { store_config := rconfig, consignors := rconsignors, items := ritems,
      sales := rsales, payouts := rpayouts })

/-- `SyncDirection` from `cloud_sync.py`. -/
inductive SyncDirection
  | push
  | pull
deriving DecidableEq, Repr

/-- `SyncStatus` from `cloud_sync.py`. -/
inductive SyncStatus
  | success
  | failed
  | partial_result
  | no_changes
deriving DecidableEq, Repr

/-- `SyncResult` dataclass (the free-form `details` dict is omitted). -/
structure SyncResult where
  direction : SyncDirection
  status : SyncStatus
  records_synced : ℕ
  error_message : Option String
deriving DecidableEq, Repr

/-- `CloudSync.push_changes`: journal in-progress, run the body; on
success mark everything synced and journal success (NO_CHANGES when the
total is zero); on any exception leave rows pending, journal failed with
the error text, and return a failure result with the remote unchanged. -/
def push_changes (configured : Bool) (db : LocalDB) (remote : RemoteDB) :
    SyncResult × LocalDB × RemoteDB :=
  if !configured then
    ({ direction := .push, status := .failed, records_synced := 0,
       error_message := some "Cloud database not configured" }, db, remote)
  else
    let step := log_sync db "push" "in_progress"
    let log_id := step.1
    let db1 := step.2
    match push_changes_body db1 remote with
    | .ok out =>
      let db2 := mark_all_synced db1
      let db3 := update_sync_log db2 log_id "success" out.1 none
      ({ direction := .push,
         status := if 0 < out.1 then .success else .no_changes,
         records_synced := out.1, error_message := none }, db3, out.2)
    | .error e =>
      let db2 := update_sync_log db1 log_id "failed" 0 (some e)
      ({ direction := .push, status := .failed, records_synced := 0,
         error_message := some e }, db2, remote)

/-! ### C3 -/

/-- A pending local account row (content as `storage.py` persists it). -/
def rowAccountC3 : Row :=
  [("account_id", .s "A1001"), ("first_name", .s "Pat"),
   ("last_name", .s "Doe"), ("account_type", .s "consignment"),
   ("street", .s "1 Main"), ("city", .s "Town"), ("state", .s "TN"),
   ("zip_code", .s "37000"), ("phone", .null), ("email", .null),
   ("split_percent", .s "60.00"), ("stocking_fee", .s "2.00"),
   ("balance", .s "0.00"), ("created_date", .s "2024-01-01"),
   ("modified_at", .s "2024-01-01T00:00:00+00:00"),
   ("sync_status", .s "pending")]

/-- Local database with exactly one pending account row. -/
def dbC3 : LocalDB :=
  { store_config := [], accounts := [(rowAccountC3, .pending)], items := [],
    sales := [], payouts := [], sync_log := [] }

/-- Local database with nothing pending at all. -/
def dbC3empty : LocalDB :=
  { store_config := [], accounts := [], items := [], sales := [],
    payouts := [], sync_log := [] }

/-- C3: a configured push always fails with `KeyError: consignors`
(`push_changes` indexes the pending-change dict with the pre-rename key
while `get_pending_changes` produces `accounts`): the pending row is never
marked synced, the journal entry is `failed`, the remote is untouched —
and a push with nothing pending likewise returns FAILED, not the
claimed "no changes". -/
theorem push_changes_rename_bug :
    (push_changes true dbC3 emptyRemote).1.status = SyncStatus.failed ∧
    (push_changes true dbC3 emptyRemote).1.error_message =
      some "KeyError: consignors" ∧
    (push_changes true dbC3 emptyRemote).2.1.accounts = [(rowAccountC3, .pending)] ∧
    (push_changes true dbC3 emptyRemote).2.2 = emptyRemote ∧
    (push_changes true dbC3 emptyRemote).2.1.sync_log =
      [{ sync_type := "push", status := "failed", records_synced := 0,
         error_message := some "KeyError: consignors" }] ∧
    (push_changes true dbC3empty emptyRemote).1.status = SyncStatus.failed ∧
    (push_changes true dbC3empty emptyRemote).1.status ≠ SyncStatus.no_changes :=
  ⟨rfl, rfl, rfl, rfl, rfl, rfl, by decide⟩

end Sync

namespace Sync

/-- A remote `consignors` row as `pull_full`'s SELECT returns it
(monetary cells already stringified by the fetch loop, dates as ISO
strings). -/
structure RemoteConsignor where
  consignor_id : String
  name : String
  street : String
  city : String
  state : String
  zip_code : String
  phone : Option String
  email : Option String
  split_percent : String
  stocking_fee : String
  balance : String
  created_date : String
deriving DecidableEq, Repr

structure RemoteItem where
  item_id : String
  consignor_id : String
  name : String
  description : String
  original_price : String
  entry_date : String
  status : String
  status_date : String
deriving DecidableEq, Repr

structure RemoteSale where
  item_id : String
  sale_date : String
  original_price : String
  sale_price : String
  discount_percent : ℤ
  stocking_fee : String
  consignor_share : String
  store_share : String
deriving DecidableEq, Repr

structure RemotePayout where
  payout_id : String
  consignor_id : String
  payout_date : String
  amount : String
  check_number : Option String
deriving DecidableEq, Repr

structure RemoteConfig where
  key : String
  value : String
deriving DecidableEq, Repr

/-- The cloud database as `pull_full` reads it. -/
structure CloudDB where
  store_config : List RemoteConfig
  consignors : List RemoteConsignor
  items : List RemoteItem
  sales : List RemoteSale
  payouts : List RemotePayout
deriving DecidableEq, Repr

def optValue : Option String → Value
  | none => .null
  | some v => .s v

/-- The dict literals `pull_full` builds from each fetched row — note the
`consignor_...` key names. -/
def fetch_config_row (c : RemoteConfig) : Row :=
  [("key", .s c.key), ("value", .s c.value)]

def fetch_consignor_row (c : RemoteConsignor) : Row :=
  [("consignor_id", .s c.consignor_id), ("name", .s c.name),
   ("street", .s c.street), ("city", .s c.city), ("state", .s c.state),
   ("zip_code", .s c.zip_code), ("phone", optValue c.phone),
   ("email", optValue c.email), ("split_percent", .s c.split_percent),
   ("stocking_fee", .s c.stocking_fee), ("balance", .s c.balance),
   ("created_date", .s c.created_date)]

def fetch_item_row (i : RemoteItem) : Row :=
  [("item_id", .s i.item_id), ("consignor_id", .s i.consignor_id),
   ("name", .s i.name), ("description", .s i.description),
   ("original_price", .s i.original_price), ("entry_date", .s i.entry_date),
   ("status", .s i.status), ("status_date", .s i.status_date)]

def fetch_sale_row (s : RemoteSale) : Row :=
  [("item_id", .s s.item_id), ("sale_date", .s s.sale_date),
   ("original_price", .s s.original_price), ("sale_price", .s s.sale_price),
   ("discount_percent", .i s.discount_percent),
   ("stocking_fee", .s s.stocking_fee),
   ("consignor_share", .s s.consignor_share),
   ("store_share", .s s.store_share)]

def fetch_payout_row (p : RemotePayout) : Row :=
  [("payout_id", .s p.payout_id), ("consignor_id", .s p.consignor_id),
   ("payout_date", .s p.payout_date), ("amount", .s p.amount),
   ("check_number", optValue p.check_number)]

/-- Local upsert by natural key with an explicit `sync_status` stamp
(`INSERT OR REPLACE ... 'synced'` in `bulk_import`). -/
def upsert_local (t : List (Row × Storage.RowStatus)) (keycol : String)
    (k : Value) (row : Row) (st : Storage.RowStatus) :
    List (Row × Storage.RowStatus) :=
  if t.any (fun r => dict_get r.1 keycol == some k) then
    t.map (fun r => if dict_get r.1 keycol == some k then (row, st) else r)
  else t ++ [(row, st)]

/-- `ConsignmentStorage.bulk_import`: one transaction importing the five
tables; every `row['...']` access is a potential `KeyError`, while
`row.get(...)` falls back to a default.  It reads the `accounts` key of
the data dict and `account_...` row fields. -/
def bulk_import (db : LocalDB) (data : List (String × List Row)) :
    Except String LocalDB := do
  let cfg := (dict_get data "config").getD []
  let sconfig ← cfg.foldlM (fun t row => do
      let k ← getitem row "key"
      let v ← getitem row "value"
      .ok (upsert_local t "key" k [("key", k), ("value", v)] .synced))
    db.store_config
  let accounts := (dict_get data "accounts").getD []
  let saccounts ← accounts.foldlM (fun t row => do
      let aid ← getitem row "account_id"
      let fn ← getitem row "first_name"
      let ln ← getitem row "last_name"
      let atype := (dict_get row "account_type").getD (.s "consignment")
      let street ← getitem row "street"
      let city ← getitem row "city"
      let state ← getitem row "state"
      let zip ← getitem row "zip_code"
      let phone := (dict_get row "phone").getD .null
      let email := (dict_get row "email").getD .null
      let sp ← getitem row "split_percent"
      let sf ← getitem row "stocking_fee"
      let bal ← getitem row "balance"
      let cd ← getitem row "created_date"
      .ok (upsert_local t "account_id" aid
        [("account_id", aid), ("first_name", fn), ("last_name", ln),
         ("account_type", atype), ("street", street), ("city", city),
         ("state", state), ("zip_code", zip), ("phone", phone),
         ("email", email), ("split_percent", sp), ("stocking_fee", sf),
         ("balance", bal), ("created_date", cd)] .synced))
    db.accounts
  let items := (dict_get data "items").getD []
  let sitems ← items.foldlM (fun t row => do
      let iid ← getitem row "item_id"
      let aid ← getitem row "account_id"
      let nm ← getitem row "name"
      let desc ← getitem row "description"
      let op ← getitem row "original_price"
      let ed ← getitem row "entry_date"
      let st ← getitem row "status"
      let sd ← getitem row "status_date"
      .ok (upsert_local t "item_id" iid
        [("item_id", iid), ("account_id", aid), ("name", nm),
         ("description", desc), ("original_price", op), ("entry_date", ed),
         ("status", st), ("status_date", sd)] .synced))
    db.items
  let sales := (dict_get data "sales").getD []
  let ssales ← sales.foldlM (fun t row => do
      let iid ← getitem row "item_id"
      let sd ← getitem row "sale_date"
      let op ← getitem row "original_price"
      let sp ← getitem row "sale_price"
      let dp ← getitem row "discount_percent"
      let sf ← getitem row "stocking_fee"
      let ash ← getitem row "account_share"
      let ssh ← getitem row "store_share"
      .ok (upsert_local t "item_id" iid
        [("item_id", iid), ("sale_date", sd), ("original_price", op),
         ("sale_price", sp), ("discount_percent", dp), ("stocking_fee", sf),
         ("account_share", ash), ("store_share", ssh)] .synced))
    db.sales
  let payouts := (dict_get data "payouts").getD []
  let spayouts ← payouts.foldlM (fun t row => do
      let pid ← getitem row "payout_id"
      let aid ← getitem row "account_id"
      let pd ← getitem row "payout_date"
      let am ← getitem row "amount"
      let ck := (dict_get row "check_number").getD .null
      .ok (upsert_local t "payout_id" pid
        [("payout_id", pid), ("account_id", aid), ("payout_date", pd),
         ("amount", am), ("check_number", ck)] .synced))
    db.payouts
  .ok { db with store_config := sconfig, accounts := saccounts,
                items := sitems, sales := ssales, payouts := spayouts }

/-- `CloudSync.pull_full`: refuse without the confirmation flag; then
fetch everything, clear all local data (a committed transaction of its
own), and bulk-import.  An import failure rolls the import back but the
clearing has already committed. -/
def pull_full (configured : Bool) (confirm : Bool) (cloud : CloudDB)
    (db : LocalDB) : SyncResult × LocalDB :=
  if !confirm then
    ({ direction := .pull, status := .failed, records_synced := 0,
       error_message := some "Recovery not confirmed. Pass confirm=True to proceed." },
     db)
  else if !configured then
    ({ direction := .pull, status := .failed, records_synced := 0,
       error_message := some "Cloud database not configured" }, db)
  else
    let step := log_sync db "pull" "in_progress"
    let log_id := step.1
    let db1 := step.2
    let data : List (String × List Row) :=
      [("config", cloud.store_config.map fetch_config_row),
       ("consignors", cloud.consignors.map fetch_consignor_row),
       ("items", cloud.items.map fetch_item_row),
       ("sales", cloud.sales.map fetch_sale_row),
       ("payouts", cloud.payouts.map fetch_payout_row)]
    let total := cloud.store_config.length + cloud.consignors.length +
      cloud.items.length + cloud.sales.length + cloud.payouts.length
    let db2 := clear_all_data db1
    match bulk_import db2 data with
    | .ok db3 =>
      ({ direction := .pull, status := .success, records_synced := total,
         error_message := none },
       update_sync_log db3 log_id "success" total none)
    | .error e =>
      ({ direction := .pull, status := .failed, records_synced := 0,
         error_message := some e },
       update_sync_log db2 log_id "failed" 0 (some e))

/-! ### C4 -/

def remoteConfigC4 : RemoteConfig :=
  { key := "default_split", value := "60.00" }

def remoteConsignorC4 : RemoteConsignor :=
  { consignor_id := "C1001", name := "Pat Doe", street := "1 Main",
    city := "Town", state := "TN", zip_code := "37000", phone := none,
    email := none, split_percent := "60.00", stocking_fee := "2.00",
    balance := "50.00", created_date := "2024-01-01" }

def remoteItemC4 : RemoteItem :=
  { item_id := "I000001", consignor_id := "C1001", name := "table",
    description := "", original_price := "100.00",
    entry_date := "2024-01-20", status := "active",
    status_date := "2024-01-20" }

/-- A populated cloud: one consignor and one item. -/
def cloudC4 : CloudDB :=
  { store_config := [remoteConfigC4], consignors := [remoteConsignorC4],
    items := [remoteItemC4], sales := [], payouts := [] }

/-- The same cloud without the item: only config and one consignor. -/
def cloudC4b : CloudDB :=
  { store_config := [remoteConfigC4], consignors := [remoteConsignorC4],
    items := [], sales := [], payouts := [] }

/-- Pre-existing local data that the destructive pull wipes. -/
def dbC4 : LocalDB :=
  { store_config := [([("key", .s "default_split"), ("value", .s "55.00")],
      .synced)],
    accounts := [(rowAccountC3, .pending)], items := [], sales := [],
    payouts := [], sync_log := [] }

/-- C4: `pull_full` without the confirmation flag fails and leaves local
data untouched (that half of the claim holds); with the flag, against a
populated remote, the import crashes with `KeyError: account_id`
(`bulk_import` expects account-named keys, `pull_full` builds
consignor-named rows) after `clear_all_data` has already committed — all
local tables end empty, nothing is imported, the result is FAILED.  Even
without items, the fetched consignor rows are silently dropped because
`bulk_import` reads the `accounts` key of a dict whose key is
`consignors`, while the result still claims success. -/
theorem pull_full_rename_bug :
    (pull_full true false cloudC4 dbC4).1.status = SyncStatus.failed ∧
    (pull_full true false cloudC4 dbC4).2 = dbC4 ∧
    (pull_full true true cloudC4 dbC4).1.status = SyncStatus.failed ∧
    (pull_full true true cloudC4 dbC4).1.error_message =
      some "KeyError: account_id" ∧
    (pull_full true true cloudC4 dbC4).2.accounts = [] ∧
    (pull_full true true cloudC4 dbC4).2.items = [] ∧
    (pull_full true true cloudC4 dbC4).2.store_config = [] ∧
    dbC4.accounts ≠ [] ∧
    (pull_full true true cloudC4b dbC4).1.status = SyncStatus.success ∧
    (pull_full true true cloudC4b dbC4).2.accounts = [] ∧
    cloudC4b.consignors ≠ [] :=
  ⟨rfl, rfl, rfl, rfl, rfl, rfl, rfl, by decide, rfl, rfl, by decide⟩

end Sync
